import Mathlib

/-!
Verification of esp-dsmr: Wi-Fi bring-up supervisor, static asset dispatcher, serial echo loop

Shallow embedding of `main/main.c`.

* `event_handler` mutates the global `wifi_retry_num` and calls into the
  platform; the embedding passes the global explicitly (`State`) and returns
  the platform calls it makes, in program order, as a list of `Effect`s.
* The values that `main.c` takes from the ESP-IDF headers (event bases, event
  ids, the default server port) and the answer of `httpd_start` are not part
  of the repository; they are the fields of `Platform`, a parameter of every
  definition that uses them.
* `http_deliver_file` and `http_404_error_handler` return the `httpd_resp_*`
  calls they make; `respond` reads such a call list as the response that the
  HTTP server puts on the wire.
* One pass through the `while (1)` body of `app_main` is `serial_iteration`.
-/

namespace EspDsmr

/-! ## Platform parameters -/

/-- Values supplied by the ESP-IDF headers and runtime. Event bases are
pointers in C; only their identity matters, so they are numbers here.
`httpd_start n` is the answer (`true` for `ESP_OK`) of the call to
`httpd_start` that is preceded by `n` earlier calls. -/
structure Platform where
  WIFI_EVENT : Nat
  IP_EVENT : Nat
  WIFI_EVENT_STA_START : Int
  WIFI_EVENT_STA_DISCONNECTED : Int
  IP_EVENT_STA_GOT_IP : Int
  server_port : Int
  httpd_start : Nat → Bool

/-- The values of ESP-IDF v5 (`wifi_event_t`, `ip_event_t`,
`HTTPD_DEFAULT_CONFIG`), on a runtime that accepts every `httpd_start`. -/
def idf : Platform where
  WIFI_EVENT := 1
  IP_EVENT := 2
  WIFI_EVENT_STA_START := 2
  WIFI_EVENT_STA_DISCONNECTED := 5
  IP_EVENT_STA_GOT_IP := 0
  server_port := 80
  httpd_start := fun _ => true

/-- An argument of a log call. -/
inductive LogArg where
  | str (s : String)
  | int (n : Int)
  deriving DecidableEq, Repr

/-- Platform calls made by the supervisor, in program order. -/
inductive Effect where
  | esp_wifi_connect
  | ESP_LOGI (fmt : String) (args : List LogArg)
  | httpd_start (ok : Bool)
  | httpd_register_uri_handler (uri : String) (method : String) (handler : String)
  | httpd_register_err_handler (code : String) (handler : String)
  deriving DecidableEq, Repr

/-- The global `wifi_retry_num`, and the answers of all `httpd_start` calls
made so far (oldest first). The second field is bookkeeping about the
platform: the program never calls `httpd_stop`, so every accepted start is a
server instance that is still running. -/
structure State where
  wifi_retry_num : Int
  httpd_results : List Bool
  deriving DecidableEq, Repr

/-- State at program start: `static int wifi_retry_num = 0`, no server. -/
def State.init : State := ⟨0, []⟩

/-- Embedding of `start_webserver`: one unconditional `httpd_start` on a fresh handle; on
`ESP_OK` the two handlers are registered and the handle (here: the index of
the call) is returned, otherwise `NULL`. -/
def start_webserver (P : Platform) (s : State) : Option Nat × State × List Effect :=
  let n := s.httpd_results.length
  let starting := Effect.ESP_LOGI "Starting server on port: \x27%d\x27" [LogArg.int P.server_port]
  if P.httpd_start n = true then
    (some n, { s with httpd_results := s.httpd_results ++ [true] },
      [starting, Effect.httpd_start true,
       Effect.ESP_LOGI "Registering URI handlers" [],
       Effect.httpd_register_uri_handler "/*" "HTTP_GET" "http_deliver_file",
       Effect.httpd_register_err_handler "HTTPD_404_NOT_FOUND" "http_404_error_handler"])
  else
    (none, { s with httpd_results := s.httpd_results ++ [false] },
      [starting, Effect.httpd_start false, Effect.ESP_LOGI "Error starting server!" []])

/-- Macro `IP2STR`: the four octets of an IPv4 address stored as a 32-bit word. -/
def IP2STR (ip : Nat) : List LogArg :=
  [LogArg.int (ip % 256), LogArg.int (ip / 256 % 256),
   LogArg.int (ip / 65536 % 256), LogArg.int (ip / 16777216 % 256)]

/-- Embedding of `event_handler`. `event_data` is read in the third branch only, as the
address of an `ip_event_got_ip_t`. The increment cannot overflow: it runs
only when `wifi_retry_num < 5`. -/
def event_handler (P : Platform) (s : State) (event_base : Nat) (event_id : Int)
    (event_data : Nat) : State × List Effect :=
  if event_base = P.WIFI_EVENT ∧ event_id = P.WIFI_EVENT_STA_START then
    (s, [Effect.esp_wifi_connect])
  else if event_base = P.WIFI_EVENT ∧ event_id = P.WIFI_EVENT_STA_DISCONNECTED then
    if s.wifi_retry_num < 5 then
      ({ s with wifi_retry_num := s.wifi_retry_num + 1 },
        [Effect.esp_wifi_connect, Effect.ESP_LOGI "Retry to connect to the AP" [],
         Effect.ESP_LOGI "connect to the AP fail" []])
    else
      (s, [Effect.ESP_LOGI "connect to the AP fail" []])
  else if event_base = P.IP_EVENT ∧ event_id = P.IP_EVENT_STA_GOT_IP then
    let r := start_webserver P { s with wifi_retry_num := 0 }
    (r.2.1, Effect.ESP_LOGI "got ip:%d.%d.%d.%d" (IP2STR event_data) :: r.2.2)
  else
    (s, [])

/-- One delivery of the event loop to `event_handler`. -/
structure Event where
  event_base : Nat
  event_id : Int
  event_data : Nat
  deriving DecidableEq, Repr

/-- The event is `WIFI_EVENT` / `WIFI_EVENT_STA_START`. -/
abbrev Event.LinkStarted (P : Platform) (e : Event) : Prop :=
  e.event_base = P.WIFI_EVENT ∧ e.event_id = P.WIFI_EVENT_STA_START

/-- The event is `WIFI_EVENT` / `WIFI_EVENT_STA_DISCONNECTED`. -/
abbrev Event.LinkDisconnected (P : Platform) (e : Event) : Prop :=
  e.event_base = P.WIFI_EVENT ∧ e.event_id = P.WIFI_EVENT_STA_DISCONNECTED

/-- The event is `IP_EVENT` / `IP_EVENT_STA_GOT_IP`. -/
abbrev Event.AddressAcquired (P : Platform) (e : Event) : Prop :=
  e.event_base = P.IP_EVENT ∧ e.event_id = P.IP_EVENT_STA_GOT_IP

/-- Deliver one event. -/
def deliver (P : Platform) (s : State) (e : Event) : State × List Effect :=
  event_handler P s e.event_base e.event_id e.event_data

/-- State after a serialized sequence of deliveries. -/
def run (P : Platform) : State → List Event → State
  | s, [] => s
  | s, e :: es => run P (deliver P s e).1 es

/-- Effects of each delivery of a sequence, one list per event. -/
def trace (P : Platform) : State → List Event → List (List Effect)
  | _, [] => []
  | s, e :: es => (deliver P s e).2 :: trace P (deliver P s e).1 es

/-- Number of connect attempts in an effect list. -/
def connects (fx : List Effect) : Nat := fx.count Effect.esp_wifi_connect

/-- Number of `httpd_start` calls in an effect list, whatever their answer. -/
def starts (fx : List Effect) : Nat :=
  fx.count (Effect.httpd_start true) + fx.count (Effect.httpd_start false)

/-- Connect attempts issued in answer to the `LinkDisconnected` events of a
sequence (those issued for other events are not counted). -/
def retryConnects (P : Platform) : State → List Event → Nat
  | _, [] => 0
  | s, e :: es =>
    (if e.LinkDisconnected P then connects (deliver P s e).2 else 0)
      + retryConnects P (deliver P s e).1 es

/-- Addresses of the linker symbols that delimit the two embedded files. -/
structure Assets where
  index_html_start : Nat
  index_html_end : Nat
  favicon_ico_start : Nat
  favicon_ico_end : Nat

/-- A row of `struct static_file`. The pointers `path` and `type` may be
NULL (`none`); `start` and `end_` (the field `end`) are addresses. -/
structure static_file where
  path : Option String
  type : Option String
  start : Nat
  end_ : Nat

/-- The table `static_files[]`, closed by the all-zero row `{ 0 }`. -/
def static_files (A : Assets) : List static_file :=
  [⟨some "/index.html", some "text/html", A.index_html_start, A.index_html_end⟩,
   ⟨some "/favicon.ico", some "image/x-icon", A.favicon_ico_start, A.favicon_ico_end⟩,
   ⟨none, none, 0, 0⟩]

/-- What a handler reads from `httpd_req_t`: the NUL-terminated `uri`, the
value of `httpd_req_get_hdr_value_len(req, "Host")`, and the string that
`httpd_req_get_hdr_value_str(req, "Host", ..)` copies when it returns
`ESP_OK` (`none` when it returns an error, as it does on a NULL buffer). -/
structure httpd_req_t where
  uri : String
  host_len : Nat
  host_str : Option String

/-- Calls made by the HTTP handlers, in program order. -/
inductive HttpCall where
  | ESP_LOGI (fmt : String) (args : List LogArg)
  | httpd_resp_set_status (status : String)
  | httpd_resp_set_hdr (field : String) (value : String)
  | httpd_resp_set_type (type : Option String)
  | httpd_resp_send (buf : Option Nat) (buf_len : Int)
  deriving DecidableEq, Repr

/-- Embedding of `http_404_error_handler`; neither `req` nor `err` is read. -/
def http_404_error_handler : List HttpCall :=
  [HttpCall.httpd_resp_set_status "302 Found",
   HttpCall.httpd_resp_set_hdr "Location" "/index.html",
   HttpCall.httpd_resp_send none 0]

/-- The first block of `http_deliver_file`: log the Host header when it has
a value of positive length and the copy succeeds. -/
def log_host (req : httpd_req_t) : List HttpCall :=
  let buf_len := req.host_len + 1
  if buf_len > 1 then
    match req.host_str with
    | some buf => [HttpCall.ESP_LOGI "Host %s active" [LogArg.str buf]]
    | none => []
  else
    []

/-- The `for` loop of `http_deliver_file` over the rows that remain, and the
fallback after it. `strcmp` returns 0 exactly on equal C strings. A table
without the closing NULL-path row runs off the array: no result. -/
def deliver_scan (uri : String) : List static_file → Option (List HttpCall)
  | [] => none
  | f :: fs =>
    match f.path with
    | none => some http_404_error_handler
    | some path =>
      if path = uri then
        some [HttpCall.ESP_LOGI "%s, %s" [LogArg.str path, LogArg.str uri],
              HttpCall.httpd_resp_set_type f.type,
              HttpCall.httpd_resp_send (some f.start) ((f.end_ : Int) - (f.start : Int))]
      else
        (deliver_scan uri fs).map
          (fun cs => HttpCall.ESP_LOGI "%s, %s" [LogArg.str path, LogArg.str uri] :: cs)

/-- Embedding of `http_deliver_file`. -/
def http_deliver_file (A : Assets) (req : httpd_req_t) : Option (List HttpCall) :=
  (deliver_scan req.uri (static_files A)).map (fun cs => log_host req ++ cs)

/-- The response that the HTTP server sends for a request. -/
structure Response where
  status : String
  content_type : String
  headers : List (String × String)
  body : List Nat
  transfers : Nat
  deriving DecidableEq, Repr

/-- Response fields of a request before its handler runs (ESP-IDF:
`HTTPD_200`, `HTTPD_TYPE_TEXT`, no extra header, nothing sent). -/
def Response.fresh : Response := ⟨"200 OK", "text/html", [], [], 0⟩

/-- The bytes at addresses `start`, .., `start + len - 1` of memory `mem`. -/
def byte_range (mem : Nat → Nat) (start : Nat) (len : Nat) : List Nat :=
  (List.range len).map (fun i => mem (start + i))

/-- Effect of the `httpd_resp_*` calls on the response (ESP-IDF API):
`httpd_resp_set_type` with NULL is rejected and changes nothing;
`httpd_resp_send` with a length of 0 or more sends that many bytes of the
buffer as the whole body in one transfer. A negative length
(`HTTPD_RESP_USE_STRLEN` or an underflow) has no result here. -/
def respond (mem : Nat → Nat) : Response → List HttpCall → Option Response
  | r, [] => some r
  | r, HttpCall.ESP_LOGI _ _ :: cs => respond mem r cs
  | r, HttpCall.httpd_resp_set_status status :: cs => respond mem { r with status := status } cs
  | r, HttpCall.httpd_resp_set_hdr field value :: cs =>
    respond mem { r with headers := r.headers ++ [(field, value)] } cs
  | r, HttpCall.httpd_resp_set_type (some type) :: cs =>
    respond mem { r with content_type := type } cs
  | r, HttpCall.httpd_resp_set_type none :: cs => respond mem r cs
  | r, HttpCall.httpd_resp_send buf buf_len :: cs =>
    if buf_len < 0 then none
    else
      respond mem
        { r with
          body := r.body ++ (match buf with
            | some start => byte_range mem start buf_len.toNat
            | none => []),
          transfers := r.transfers + 1 } cs

/-- Response to a GET request routed to `http_deliver_file` by the `/*`
registration. -/
def GET (A : Assets) (mem : Nat → Nat) (req : httpd_req_t) : Option Response :=
  (http_deliver_file A req).bind (respond mem Response.fresh)

/-- Response when the server reports `HTTPD_404_NOT_FOUND` to the registered
error handler. -/
def not_found (mem : Nat → Nat) : Option Response :=
  respond mem Response.fresh http_404_error_handler

/-! ## Serial echo loop (`app_main`) -/

/-- Calls made by the serial loop: the bytes handed to `uart_write_bytes`,
and the text that a `"%s"` log call prints. -/
inductive SerialEffect where
  | uart_write_bytes (src : List Nat)
  | ESP_LOGI (fmt : String) (text : List Nat)
  deriving DecidableEq, Repr

/-- The C string that starts a buffer: its bytes before the first zero. -/
def cstr (buf : List Nat) : List Nat := buf.takeWhile (fun b => b ≠ 0)

/-- One pass through the body of `while (1)`. `data` is the 1024-byte buffer
on entry. `read` is the outcome of `uart_read_bytes(.., data, 1024 - 1, ..)`:
`some rx` when it stores the bytes `rx` at the start of `data` and returns
their number, `none` when it returns an error. The result is the buffer on
exit and the calls made; there is none when the read fails, returns more
than was asked for, or the buffer is not 1024 bytes long. -/
def serial_iteration (data : List Nat) (read : Option (List Nat)) :
    Option (List Nat × List SerialEffect) :=
  match read with
  | none => none
  | some rx =>
    let len := rx.length
    if len ≤ 1024 - 1 ∧ data.length = 1024 then
      let data1 := rx ++ data.drop len
      let echo := SerialEffect.uart_write_bytes (data1.take len)
      if len ≠ 0 then
        let data2 := data1.set len 0
        some (data2, [echo, SerialEffect.ESP_LOGI "%s" (cstr data2)])
      else
        some (data1, [echo])
    else
      none

/-- All bytes written back to the serial channel, in order. -/
def echoed : List SerialEffect → List Nat
  | [] => []
  | SerialEffect.uart_write_bytes src :: fx => src ++ echoed fx
  | SerialEffect.ESP_LOGI _ _ :: fx => echoed fx

/-- The texts of the log entries emitted, in order. -/
def logged : List SerialEffect → List (List Nat)
  | [] => []
  | SerialEffect.uart_write_bytes _ :: fx => logged fx
  | SerialEffect.ESP_LOGI _ text :: fx => text :: logged fx

/-! ## Theorems -/

theorem deliver_disconnected_lt (P : Platform) (s : State) (e : Event)
    (hne : P.WIFI_EVENT_STA_START ≠ P.WIFI_EVENT_STA_DISCONNECTED)
    (he : e.LinkDisconnected P) (hlt : s.wifi_retry_num < 5) :
    deliver P s e =
      ({ s with wifi_retry_num := s.wifi_retry_num + 1 },
        [Effect.esp_wifi_connect, Effect.ESP_LOGI "Retry to connect to the AP" [],
         Effect.ESP_LOGI "connect to the AP fail" []]) := by
  obtain ⟨hb, hi⟩ := he
  have h1 : ¬ (e.event_base = P.WIFI_EVENT ∧ e.event_id = P.WIFI_EVENT_STA_START) := by
    rintro ⟨-, h⟩
    exact hne (h.symm.trans hi)
  unfold deliver event_handler
  rw [if_neg h1, if_pos ⟨hb, hi⟩, if_pos hlt]

theorem deliver_disconnected_ge (P : Platform) (s : State) (e : Event)
    (hne : P.WIFI_EVENT_STA_START ≠ P.WIFI_EVENT_STA_DISCONNECTED)
    (he : e.LinkDisconnected P) (hge : ¬ s.wifi_retry_num < 5) :
    deliver P s e = (s, [Effect.ESP_LOGI "connect to the AP fail" []]) := by
  obtain ⟨hb, hi⟩ := he
  have h1 : ¬ (e.event_base = P.WIFI_EVENT ∧ e.event_id = P.WIFI_EVENT_STA_START) := by
    rintro ⟨-, h⟩
    exact hne (h.symm.trans hi)
  unfold deliver event_handler
  rw [if_neg h1, if_pos ⟨hb, hi⟩, if_neg hge]

theorem deliver_started (P : Platform) (s : State) (e : Event) (he : e.LinkStarted P) :
    deliver P s e = (s, [Effect.esp_wifi_connect]) := by
  unfold deliver event_handler
  rw [if_pos he]

theorem deliver_acquired (P : Platform) (s : State) (e : Event)
    (hb : P.WIFI_EVENT ≠ P.IP_EVENT) (he : e.AddressAcquired P) :
    deliver P s e =
      ((start_webserver P { s with wifi_retry_num := 0 }).2.1,
        Effect.ESP_LOGI "got ip:%d.%d.%d.%d" (IP2STR e.event_data)
          :: (start_webserver P { s with wifi_retry_num := 0 }).2.2) := by
  have h1 : ¬ (e.event_base = P.WIFI_EVENT ∧ e.event_id = P.WIFI_EVENT_STA_START) := by
    rintro ⟨h, -⟩
    exact hb (h.symm.trans he.1)
  have h2 : ¬ (e.event_base = P.WIFI_EVENT ∧ e.event_id = P.WIFI_EVENT_STA_DISCONNECTED) := by
    rintro ⟨h, -⟩
    exact hb (h.symm.trans he.1)
  unfold deliver event_handler
  rw [if_neg h1, if_neg h2, if_pos he]

theorem deliver_other (P : Platform) (s : State) (e : Event)
    (hd : ¬ e.LinkDisconnected P) (ha : ¬ e.AddressAcquired P) :
    (deliver P s e).1 = s := by
  unfold deliver event_handler
  rw [if_neg hd, if_neg ha]
  split <;> rfl

theorem start_webserver_state (P : Platform) (s : State) :
    (start_webserver P s).2.1 =
      { s with httpd_results := s.httpd_results ++ [P.httpd_start s.httpd_results.length] } := by
  by_cases h : P.httpd_start s.httpd_results.length = true
  · simp [start_webserver, h]
  · simp [start_webserver, h]

theorem start_webserver_starts (P : Platform) (s : State) :
    starts (start_webserver P s).2.2 = 1 ∧ connects (start_webserver P s).2.2 = 0 := by
  by_cases h : P.httpd_start s.httpd_results.length = true
  · simp [start_webserver, h, starts, connects]
  · simp [start_webserver, h, starts, connects]

theorem deliver_retry_bounds (P : Platform) (s : State) (e : Event)
    (h : 0 ≤ s.wifi_retry_num ∧ s.wifi_retry_num ≤ 5) :
    0 ≤ (deliver P s e).1.wifi_retry_num ∧ (deliver P s e).1.wifi_retry_num ≤ 5 := by
  unfold deliver event_handler
  split
  · exact h
  · split
    · split
      · simp only
        omega
      · exact h
    · split
      · simp only [start_webserver_state]
        omega
      · exact h

theorem run_retry_bounds (P : Platform) (evs : List Event) :
    ∀ s : State, 0 ≤ s.wifi_retry_num ∧ s.wifi_retry_num ≤ 5 →
      0 ≤ (run P s evs).wifi_retry_num ∧ (run P s evs).wifi_retry_num ≤ 5 := by
  induction evs with
  | nil => intro s h; exact h
  | cons e es ih => intro s h; exact ih _ (deliver_retry_bounds P s e h)

theorem run_append (P : Platform) (a b : List Event) :
    ∀ s : State, run P s (a ++ b) = run P (run P s a) b := by
  induction a with
  | nil => intro s; rfl
  | cons e es ih => intro s; exact ih _

theorem run_disconnects (P : Platform)
    (hne : P.WIFI_EVENT_STA_START ≠ P.WIFI_EVENT_STA_DISCONNECTED) (evs : List Event) :
    ∀ s : State, (∀ e ∈ evs, e.LinkDisconnected P) → s.wifi_retry_num ≤ 5 →
      (run P s evs).wifi_retry_num = min 5 (s.wifi_retry_num + evs.length)
      ∧ (run P s evs).httpd_results = s.httpd_results := by
  induction evs with
  | nil =>
    intro s _ h5
    simp only [run, List.length_nil, Nat.cast_zero, add_zero]
    exact ⟨(min_eq_right h5).symm, trivial⟩
  | cons e es ih =>
    intro s hall h5
    have he := hall e (List.mem_cons_self e es)
    have hes : ∀ x ∈ es, x.LinkDisconnected P := fun x hx => hall x (List.mem_cons_of_mem e hx)
    simp only [run, List.length_cons, Nat.cast_add, Nat.cast_one]
    by_cases hlt : s.wifi_retry_num < 5
    · rw [deliver_disconnected_lt P s e hne he hlt]
      obtain ⟨h1, h2⟩ := ih { s with wifi_retry_num := s.wifi_retry_num + 1 } hes
        (by simp only; omega)
      refine ⟨?_, h2⟩
      rw [h1]
      simp only
      congr 1
      ring
    · rw [deliver_disconnected_ge P s e hne he hlt]
      obtain ⟨h1, h2⟩ := ih s hes h5
      refine ⟨?_, h2⟩
      rw [h1]
      have : s.wifi_retry_num = 5 := by omega
      rw [this]
      simp only [min_def]
      split_ifs <;> omega

theorem trace_disconnects (P : Platform)
    (hne : P.WIFI_EVENT_STA_START ≠ P.WIFI_EVENT_STA_DISCONNECTED) (evs : List Event) :
    ∀ s : State, (∀ e ∈ evs, e.LinkDisconnected P) → s.wifi_retry_num + evs.length ≤ 5 →
      trace P s evs = evs.map (fun _ =>
        [Effect.esp_wifi_connect, Effect.ESP_LOGI "Retry to connect to the AP" [],
         Effect.ESP_LOGI "connect to the AP fail" []]) := by
  induction evs with
  | nil => intro s _ _; rfl
  | cons e es ih =>
    intro s hall h5
    have he := hall e (List.mem_cons_self e es)
    have hes : ∀ x ∈ es, x.LinkDisconnected P := fun x hx => hall x (List.mem_cons_of_mem e hx)
    simp only [List.length_cons, Nat.cast_add, Nat.cast_one] at h5
    have hlt : s.wifi_retry_num < 5 := by omega
    simp only [trace, List.map_cons]
    rw [deliver_disconnected_lt P s e hne he hlt]
    simp only
    rw [ih { s with wifi_retry_num := s.wifi_retry_num + 1 } hes (by simp only; omega)]

theorem deliver_results_of_not_acquired (P : Platform) (s : State) (e : Event)
    (ha : ¬ e.AddressAcquired P) :
    (deliver P s e).1.httpd_results = s.httpd_results
    ∧ s.wifi_retry_num ≤ (deliver P s e).1.wifi_retry_num
    ∧ starts (deliver P s e).2 = 0 := by
  unfold deliver event_handler
  rw [if_neg ha]
  split
  · simp [starts]
  · split
    · split
      · simp [starts]
      · simp [starts]
    · simp [starts]

theorem run_mono_of_not_acquired (P : Platform) (evs : List Event) :
    ∀ s : State, (∀ e ∈ evs, ¬ e.AddressAcquired P) →
      s.wifi_retry_num ≤ (run P s evs).wifi_retry_num := by
  induction evs with
  | nil => intro s _; exact le_refl _
  | cons e es ih =>
    intro s hno
    have h1 := (deliver_results_of_not_acquired P s e (hno e (List.mem_cons_self e es))).2.1
    have h2 := ih (deliver P s e).1 (fun x hx => hno x (List.mem_cons_of_mem e hx))
    exact le_trans h1 h2

theorem retryConnects_eq (P : Platform)
    (hne : P.WIFI_EVENT_STA_START ≠ P.WIFI_EVENT_STA_DISCONNECTED) (evs : List Event) :
    ∀ s : State, (∀ e ∈ evs, ¬ e.AddressAcquired P) →
      (retryConnects P s evs : Int) + s.wifi_retry_num = (run P s evs).wifi_retry_num := by
  induction evs with
  | nil => intro s _; simp [retryConnects, run]
  | cons e es ih =>
    intro s hno
    have ha := hno e (List.mem_cons_self e es)
    have ih2 := ih (deliver P s e).1 (fun x hx => hno x (List.mem_cons_of_mem e hx))
    simp only [retryConnects, run, Nat.cast_add]
    rw [← ih2]
    by_cases hd : e.LinkDisconnected P
    · rw [if_pos hd]
      by_cases hlt : s.wifi_retry_num < 5
      · rw [deliver_disconnected_lt P s e hne hd hlt]
        simp [connects]
        ring
      · rw [deliver_disconnected_ge P s e hne hd hlt]
        simp [connects]
    · rw [if_neg hd, deliver_other P s e hd ha]
      simp

theorem retryConnects_append (P : Platform) (a b : List Event) :
    ∀ s : State, retryConnects P s (a ++ b) =
      retryConnects P s a + retryConnects P (run P s a) b := by
  induction a with
  | nil => intro s; simp [retryConnects, run]
  | cons x xs ih =>
    intro s
    rw [List.cons_append]
    simp only [retryConnects, run]
    rw [ih, Nat.add_assoc]

/-- C1. From the initial state, N consecutive `LinkDisconnected` events with
N at most 5 leave `wifi_retry_num` at N (one increment per event), and each
of the N deliveries issues exactly one connect attempt. -/
theorem retry_counter_counts_disconnects (P : Platform)
    (hne : P.WIFI_EVENT_STA_START ≠ P.WIFI_EVENT_STA_DISCONNECTED) (evs : List Event)
    (hall : ∀ e ∈ evs, e.LinkDisconnected P) (hN : evs.length ≤ 5) :
    (run P State.init evs).wifi_retry_num = evs.length
    ∧ (trace P State.init evs).length = evs.length
    ∧ (∀ fx ∈ trace P State.init evs, connects fx = 1)
    ∧ ∀ k, k ≤ evs.length → (run P State.init (evs.take k)).wifi_retry_num = k := by
  have h0 : State.init.wifi_retry_num = 0 := rfl
  have hlen : (evs.length : Int) ≤ 5 := by exact_mod_cast hN
  have htr := trace_disconnects P hne evs State.init hall (by rw [h0]; omega)
  refine ⟨?_, ?_, ?_, ?_⟩
  · rw [(run_disconnects P hne evs State.init hall (by rw [h0]; omega)).1, h0]
    simp only [zero_add]
    exact min_eq_right hlen
  · rw [htr, List.length_map]
  · intro fx hfx
    rw [htr, List.mem_map] at hfx
    obtain ⟨_, _, rfl⟩ := hfx
    simp [connects]
  · intro k hk
    have hall2 : ∀ e ∈ evs.take k, e.LinkDisconnected P :=
      fun e he => hall e (List.mem_of_mem_take he)
    rw [(run_disconnects P hne (evs.take k) State.init hall2 (by rw [h0]; omega)).1, h0]
    simp only [zero_add, List.length_take]
    have : ((min k evs.length : Nat) : Int) = k := by
      rw [min_eq_left hk]
    rw [this]
    exact min_eq_right (by omega)

/-- Witness for C1: three disconnects on the ESP-IDF constants. -/
theorem retry_counter_counts_disconnects_witness :
    (run idf State.init [⟨1, 5, 0⟩, ⟨1, 5, 0⟩, ⟨1, 5, 0⟩]).wifi_retry_num = 3
    ∧ (trace idf State.init [⟨1, 5, 0⟩, ⟨1, 5, 0⟩, ⟨1, 5, 0⟩]).length = 3 := by
  have h := retry_counter_counts_disconnects idf (by decide)
    [⟨1, 5, 0⟩, ⟨1, 5, 0⟩, ⟨1, 5, 0⟩] (by decide) (by decide)
  exact ⟨h.1, h.2.1⟩

/-- C2. After at least 5 consecutive `LinkDisconnected` events from the
initial state `wifi_retry_num` is 5, and the next `LinkDisconnected` (the 6th
or any later one) issues no connect attempt, only logs the failure, and
leaves the state, so `wifi_retry_num` stays 5. -/
theorem retries_exhausted_after_five (P : Platform)
    (hne : P.WIFI_EVENT_STA_START ≠ P.WIFI_EVENT_STA_DISCONNECTED) (evs : List Event)
    (hall : ∀ e ∈ evs, e.LinkDisconnected P) (h5 : 5 ≤ evs.length)
    (e : Event) (he : e.LinkDisconnected P) :
    (run P State.init evs).wifi_retry_num = 5
    ∧ (deliver P (run P State.init evs) e).1.wifi_retry_num = 5
    ∧ connects (deliver P (run P State.init evs) e).2 = 0
    ∧ deliver P (run P State.init evs) e
        = (run P State.init evs, [Effect.ESP_LOGI "connect to the AP fail" []]) := by
  have h0 : State.init.wifi_retry_num = 0 := rfl
  have hlen : (5 : Int) ≤ evs.length := by exact_mod_cast h5
  have hr : (run P State.init evs).wifi_retry_num = 5 := by
    rw [(run_disconnects P hne evs State.init hall (by rw [h0]; omega)).1, h0]
    simp only [zero_add]
    exact min_eq_left hlen
  have hd := deliver_disconnected_ge P (run P State.init evs) e hne he (by rw [hr]; omega)
  refine ⟨hr, ?_, ?_, hd⟩
  · rw [hd]; exact hr
  · rw [hd]; simp [connects]

/-- Witness for C2: the sixth disconnect on the ESP-IDF constants. -/
theorem retries_exhausted_after_five_witness :
    (run idf State.init [⟨1, 5, 0⟩, ⟨1, 5, 0⟩, ⟨1, 5, 0⟩, ⟨1, 5, 0⟩, ⟨1, 5, 0⟩]).wifi_retry_num = 5
    ∧ connects (deliver idf
        (run idf State.init [⟨1, 5, 0⟩, ⟨1, 5, 0⟩, ⟨1, 5, 0⟩, ⟨1, 5, 0⟩, ⟨1, 5, 0⟩]) ⟨1, 5, 0⟩).2 = 0 := by
  have h := retries_exhausted_after_five idf (by decide)
    [⟨1, 5, 0⟩, ⟨1, 5, 0⟩, ⟨1, 5, 0⟩, ⟨1, 5, 0⟩, ⟨1, 5, 0⟩] (by decide) (by decide)
    ⟨1, 5, 0⟩ (by decide)
  exact ⟨h.1, h.2.2.1⟩

/-- C3. Whatever the prior value of `wifi_retry_num`, an `AddressAcquired`
event sets it to 0 and runs `start_webserver` once: the effects are the
address log followed by those of one `start_webserver`, with exactly one
`httpd_start` call and no connect attempt. -/
theorem address_acquired_resets_and_starts (P : Platform)
    (hb : P.WIFI_EVENT ≠ P.IP_EVENT) (s : State) (e : Event) (he : e.AddressAcquired P) :
    (deliver P s e).1.wifi_retry_num = 0
    ∧ starts (deliver P s e).2 = 1
    ∧ connects (deliver P s e).2 = 0
    ∧ deliver P s e =
        ((start_webserver P { s with wifi_retry_num := 0 }).2.1,
          Effect.ESP_LOGI "got ip:%d.%d.%d.%d" (IP2STR e.event_data)
            :: (start_webserver P { s with wifi_retry_num := 0 }).2.2) := by
  have hd := deliver_acquired P s e hb he
  have hs := start_webserver_starts P { s with wifi_retry_num := 0 }
  refine ⟨?_, ?_, ?_, hd⟩
  · rw [hd]
    simp only [start_webserver_state]
  · rw [hd]
    have h1 := hs.1
    simp only [starts] at h1 ⊢
    rw [List.count_cons, List.count_cons]
    simpa using h1
  · rw [hd]
    have h2 := hs.2
    simp only [connects] at h2 ⊢
    rw [List.count_cons]
    simpa using h2

/-- Witness for C3: an address event after five failed retries. -/
theorem address_acquired_resets_and_starts_witness :
    (deliver idf ⟨5, []⟩ ⟨2, 0, 3232235777⟩).1.wifi_retry_num = 0
    ∧ starts (deliver idf ⟨5, []⟩ ⟨2, 0, 3232235777⟩).2 = 1 := by
  have h := address_acquired_resets_and_starts idf (by decide) ⟨5, []⟩ ⟨2, 0, 3232235777⟩
    (by decide)
  exact ⟨h.1, h.2.1⟩

/-- C6. For every finite sequence of events of any kind delivered from the
initial state, `wifi_retry_num` is between 0 and 5 after every event (after
every prefix of the sequence). -/
theorem retry_counter_within_bounds (P : Platform) (evs : List Event) (k : Nat) :
    0 ≤ (run P State.init (evs.take k)).wifi_retry_num
    ∧ (run P State.init (evs.take k)).wifi_retry_num ≤ 5 :=
  run_retry_bounds P (evs.take k) State.init ⟨le_refl _, by decide⟩

/-- C9. A `LinkStarted` event issues exactly one connect attempt and leaves
the state unchanged; every event that is neither `LinkDisconnected` nor
`AddressAcquired` leaves `wifi_retry_num` (the whole state) unchanged. -/
theorem retry_counter_frame (P : Platform) (s : State) (e : Event) :
    (e.LinkStarted P →
      deliver P s e = (s, [Effect.esp_wifi_connect]) ∧ connects (deliver P s e).2 = 1
        ∧ (deliver P s e).1.wifi_retry_num = s.wifi_retry_num)
    ∧ (¬ e.LinkDisconnected P → ¬ e.AddressAcquired P →
        (deliver P s e).1 = s ∧ (deliver P s e).1.wifi_retry_num = s.wifi_retry_num) := by
  constructor
  · intro he
    have h := deliver_started P s e he
    rw [h]
    exact ⟨rfl, by simp [connects], rfl⟩
  · intro hd ha
    have h := deliver_other P s e hd ha
    exact ⟨h, by rw [h]⟩

/-- Witness for C9: a start event and a `WIFI_EVENT_STA_CONNECTED` (id 4)
event at `wifi_retry_num = 3`. -/
theorem retry_counter_frame_witness :
    (deliver idf ⟨3, []⟩ ⟨1, 2, 0⟩ = (⟨3, []⟩, [Effect.esp_wifi_connect]))
    ∧ (deliver idf ⟨3, []⟩ ⟨1, 4, 0⟩).1.wifi_retry_num = 3 :=
  ⟨((retry_counter_frame idf ⟨3, []⟩ ⟨1, 2, 0⟩).1 (by decide)).1,
   ((retry_counter_frame idf ⟨3, []⟩ ⟨1, 4, 0⟩).2 (by decide) (by decide)).2⟩

/-- C10. For every finite event sequence from the initial state without an
`AddressAcquired` event: the connect attempts issued in answer to
`LinkDisconnected` events number `wifi_retry_num` at the end, hence at most
5; `wifi_retry_num` never decreases from one prefix to a longer one; and
once it is 5, a `LinkStarted` issues its own connect attempt, leaves the
state as it is, and a following `LinkDisconnected` issues none. -/
theorem retry_budget_not_restored (P : Platform)
    (hne : P.WIFI_EVENT_STA_START ≠ P.WIFI_EVENT_STA_DISCONNECTED) (evs : List Event)
    (hno : ∀ e ∈ evs, ¬ e.AddressAcquired P) :
    retryConnects P State.init evs ≤ 5
    ∧ (retryConnects P State.init evs : Int) = (run P State.init evs).wifi_retry_num
    ∧ (∀ pre suf, evs = pre ++ suf →
        (run P State.init pre).wifi_retry_num ≤ (run P State.init evs).wifi_retry_num)
    ∧ (∀ e1 e2, (run P State.init evs).wifi_retry_num = 5 →
        e1.LinkStarted P → e2.LinkDisconnected P →
        deliver P (run P State.init evs) e1 = (run P State.init evs, [Effect.esp_wifi_connect])
        ∧ connects (deliver P (deliver P (run P State.init evs) e1).1 e2).2 = 0
        ∧ retryConnects P State.init (evs ++ [e1, e2]) = retryConnects P State.init evs) := by
  have heq := retryConnects_eq P hne evs State.init hno
  have hb := run_retry_bounds P evs State.init ⟨le_refl _, by decide⟩
  have h0 : State.init.wifi_retry_num = 0 := rfl
  rw [h0, add_zero] at heq
  refine ⟨?_, heq, ?_, ?_⟩
  · have := hb.2
    omega
  · intro pre suf hsplit
    subst hsplit
    rw [run_append]
    exact run_mono_of_not_acquired P suf _
      (fun x hx => hno x (List.mem_append_right pre hx))
  · intro e1 e2 h5 h1 h2
    have hs := deliver_started P (run P State.init evs) e1 h1
    have hd := deliver_disconnected_ge P (run P State.init evs) e2 hne h2 (by rw [h5]; omega)
    refine ⟨hs, ?_, ?_⟩
    · rw [hs, hd]
      simp [connects]
    · rw [retryConnects_append]
      have hnd : ¬ e1.LinkDisconnected P := by
        rintro ⟨-, h⟩
        exact hne (h1.2.symm.trans h)
      simp only [retryConnects, if_neg hnd, if_pos h2, hs, hd]
      simp [connects]

/-- Witness for C10: five disconnects, a restart, one more disconnect. -/
theorem retry_budget_not_restored_witness :
    retryConnects idf State.init
      [⟨1, 5, 0⟩, ⟨1, 2, 0⟩, ⟨1, 5, 0⟩, ⟨1, 5, 0⟩, ⟨1, 5, 0⟩, ⟨1, 5, 0⟩, ⟨1, 2, 0⟩, ⟨1, 5, 0⟩] ≤ 5 :=
  (retry_budget_not_restored idf (by decide)
    [⟨1, 5, 0⟩, ⟨1, 2, 0⟩, ⟨1, 5, 0⟩, ⟨1, 5, 0⟩, ⟨1, 5, 0⟩, ⟨1, 5, 0⟩, ⟨1, 2, 0⟩, ⟨1, 5, 0⟩]
    (by decide)).1

theorem respond_log_host (mem : Nat → Nat) (r : Response) (req : httpd_req_t)
    (cs : List HttpCall) : respond mem r (log_host req ++ cs) = respond mem r cs := by
  by_cases h : req.host_len + 1 > 1
  · have h0 : 0 < req.host_len := by omega
    cases hs : req.host_str <;> simp [log_host, hs, h0, respond]
  · simp [log_host, h]

theorem respond_log (mem : Nat → Nat) (r : Response) (fmt : String) (args : List LogArg)
    (cs : List HttpCall) :
    respond mem r (HttpCall.ESP_LOGI fmt args :: cs) = respond mem r cs := by
  simp only [respond]

theorem respond_asset (mem : Nat → Nat) (type : String)
    (start end_ : Nat) (hle : start ≤ end_) :
    respond mem Response.fresh
      [HttpCall.httpd_resp_set_type (some type),
       HttpCall.httpd_resp_send (some start) ((end_ : Int) - (start : Int))]
      = some ⟨"200 OK", type, [], byte_range mem start (end_ - start), 1⟩ := by
  have h1 : ¬ ((end_ : Int) - (start : Int) < 0) := by omega
  have h2 : ((end_ : Int) - (start : Int)).toNat = end_ - start := by omega
  simp only [respond, if_neg h1, h2, Response.fresh, List.nil_append]

theorem byte_range_getElem (mem : Nat → Nat) (start len i : Nat) (hi : i < len) :
    (byte_range mem start len)[i]? = some (mem (start + i)) := by
  simp [byte_range, List.getElem?_range hi]

theorem cstr_set_terminator (rx : List Nat) :
    ∀ t : List Nat, t ≠ [] →
      cstr ((rx ++ t).set rx.length 0) = rx.takeWhile (fun b => b ≠ 0)
      ∧ ((rx ++ t).set rx.length 0).take rx.length = rx
      ∧ ((rx ++ t).set rx.length 0)[rx.length]? = some 0 := by
  induction rx with
  | nil =>
    intro t ht
    cases t with
    | nil => exact absurd rfl ht
    | cons x xs => simp [cstr, List.takeWhile]
  | cons a rx ih =>
    intro t ht
    obtain ⟨h1, h2, h3⟩ := ih t ht
    simp only [cstr] at h1
    refine ⟨?_, ?_, ?_⟩
    · simp only [cstr, List.cons_append, List.length_cons, List.set_cons_succ,
        List.takeWhile_cons]
      rw [h1]
    · simp only [List.cons_append, List.length_cons, List.set_cons_succ, List.take_succ_cons]
      rw [h2]
    · simp only [List.cons_append, List.length_cons, List.set_cons_succ,
        List.getElem?_cons_succ]
      exact h3

theorem takeWhile_of_all (rx : List Nat) (h : ∀ b ∈ rx, b ≠ 0) :
    rx.takeWhile (fun b => b ≠ 0) = rx := by
  induction rx with
  | nil => rfl
  | cons a rx ih =>
    have ha : a ≠ 0 := h a (List.mem_cons_self a rx)
    simp only [List.takeWhile_cons, ha, ne_eq, not_false_eq_true, decide_True, if_true]
    rw [ih (fun b hb => h b (List.mem_cons_of_mem a hb))]

/-- C4. A GET whose URI equals the path of a row of `static_files` is
answered with status 200, the type recorded in that row, and, in one
transfer, the `end - start` bytes that start at the row's `start`; so
`/index.html` gives `text/html` with the embedded index bytes and
`/favicon.ico` gives `image/x-icon` with the embedded favicon bytes. The
linker places each `end` symbol at or after its `start` symbol. -/
theorem asset_served_on_exact_match (A : Assets) (mem : Nat → Nat) (host_len : Nat)
    (host_str : Option String) :
    (∀ f ∈ static_files A, ∀ path type : String, f.path = some path → f.type = some type →
      f.start ≤ f.end_ →
      GET A mem ⟨path, host_len, host_str⟩
        = some ⟨"200 OK", type, [], byte_range mem f.start (f.end_ - f.start), 1⟩)
    ∧ (A.index_html_start ≤ A.index_html_end →
      GET A mem ⟨"/index.html", host_len, host_str⟩
        = some ⟨"200 OK", "text/html", [],
            byte_range mem A.index_html_start (A.index_html_end - A.index_html_start), 1⟩)
    ∧ (A.favicon_ico_start ≤ A.favicon_ico_end →
      GET A mem ⟨"/favicon.ico", host_len, host_str⟩
        = some ⟨"200 OK", "image/x-icon", [],
            byte_range mem A.favicon_ico_start (A.favicon_ico_end - A.favicon_ico_start), 1⟩)
    ∧ (∀ start len : Nat, (byte_range mem start len).length = len
        ∧ ∀ i, i < len → (byte_range mem start len)[i]? = some (mem (start + i))) := by
  have hindex : A.index_html_start ≤ A.index_html_end →
      GET A mem ⟨"/index.html", host_len, host_str⟩
        = some ⟨"200 OK", "text/html", [],
            byte_range mem A.index_html_start (A.index_html_end - A.index_html_start), 1⟩ := by
    intro hle
    simp only [GET, http_deliver_file, static_files, deliver_scan, if_true, Option.map_some',
      Option.some_bind, respond_log_host, respond_log]
    exact respond_asset mem _ _ _ hle
  have hfav : A.favicon_ico_start ≤ A.favicon_ico_end →
      GET A mem ⟨"/favicon.ico", host_len, host_str⟩
        = some ⟨"200 OK", "image/x-icon", [],
            byte_range mem A.favicon_ico_start (A.favicon_ico_end - A.favicon_ico_start), 1⟩ := by
    intro hle
    have hne : ¬ ("/index.html" = "/favicon.ico") := by decide
    simp only [GET, http_deliver_file, static_files, deliver_scan, if_neg hne, if_true,
      Option.map_some', Option.some_bind, respond_log_host, respond_log]
    exact respond_asset mem _ _ _ hle
  refine ⟨?_, hindex, hfav, ?_⟩
  · intro f hf path type hp ht hle
    simp only [static_files, List.mem_cons, List.mem_singleton, List.not_mem_nil,
      or_false] at hf
    rcases hf with rfl | rfl | rfl
    · simp only [Option.some.injEq] at hp ht
      subst hp ht
      exact hindex hle
    · simp only [Option.some.injEq] at hp ht
      subst hp ht
      exact hfav hle
    · exact absurd hp (by simp)
  · intro start len
    exact ⟨by simp [byte_range], fun i hi => byte_range_getElem mem start len i hi⟩

/-- Witness for C4: a three-byte index file at address 100. -/
theorem asset_served_on_exact_match_witness :
    GET ⟨100, 103, 200, 202⟩ (fun a => a % 256) ⟨"/index.html", 9, some "192.0.2.1"⟩
      = some ⟨"200 OK", "text/html", [],
          byte_range (fun a => a % 256) 100 (103 - 100), 1⟩ :=
  (asset_served_on_exact_match ⟨100, 103, 200, 202⟩ (fun a => a % 256) 9
    (some "192.0.2.1")).2.1 (by decide)

/-- C5. A GET whose URI equals no path of `static_files` is answered with
status 302, the header `Location: /index.html` and an empty body, and that
response is the one `http_404_error_handler` gives; the calls of
`http_deliver_file` are then log calls followed by exactly the calls of
`http_404_error_handler`. -/
theorem redirect_on_miss (A : Assets) (mem : Nat → Nat) (req : httpd_req_t)
    (hmiss : ∀ f ∈ static_files A, f.path ≠ some req.uri) :
    GET A mem req = some ⟨"302 Found", "text/html", [("Location", "/index.html")], [], 1⟩
    ∧ GET A mem req = not_found mem
    ∧ http_deliver_file A req
        = some (log_host req
            ++ [HttpCall.ESP_LOGI "%s, %s" [LogArg.str "/index.html", LogArg.str req.uri],
                HttpCall.ESP_LOGI "%s, %s" [LogArg.str "/favicon.ico", LogArg.str req.uri]]
            ++ http_404_error_handler) := by
  have h1 : ¬ ("/index.html" = req.uri) := by
    intro h
    exact hmiss ⟨some "/index.html", some "text/html", A.index_html_start, A.index_html_end⟩
      (by simp [static_files]) (by rw [h])
  have h2 : ¬ ("/favicon.ico" = req.uri) := by
    intro h
    exact hmiss ⟨some "/favicon.ico", some "image/x-icon", A.favicon_ico_start,
      A.favicon_ico_end⟩ (by simp [static_files]) (by rw [h])
  have hcalls : http_deliver_file A req
      = some (log_host req
          ++ [HttpCall.ESP_LOGI "%s, %s" [LogArg.str "/index.html", LogArg.str req.uri],
              HttpCall.ESP_LOGI "%s, %s" [LogArg.str "/favicon.ico", LogArg.str req.uri]]
          ++ http_404_error_handler) := by
    simp only [http_deliver_file, static_files, deliver_scan, if_neg h1, if_neg h2,
      Option.map_some', List.append_assoc, List.cons_append, List.nil_append]
  have hnf : not_found mem
      = some ⟨"302 Found", "text/html", [("Location", "/index.html")], [], 1⟩ := by
    simp [not_found, http_404_error_handler, respond, Response.fresh]
  have hget : GET A mem req = not_found mem := by
    simp only [GET, hcalls, Option.some_bind, List.append_assoc, respond_log_host,
      List.cons_append, List.nil_append, respond_log, not_found]
  exact ⟨hget.trans hnf, hget, hcalls⟩

/-- Witness for C5: the request `GET /nonexistent`. -/
theorem redirect_on_miss_witness :
    GET ⟨100, 103, 200, 202⟩ (fun a => a % 256) ⟨"/nonexistent", 0, none⟩
      = some ⟨"302 Found", "text/html", [("Location", "/index.html")], [], 1⟩ :=
  (redirect_on_miss ⟨100, 103, 200, 202⟩ (fun a => a % 256) ⟨"/nonexistent", 0, none⟩
    (by decide)).1

set_option maxRecDepth 100000 in
/-- C8 as stated fails: when the bytes read contain a zero byte, the log
entry is not those bytes. Reading the three bytes 65, 0, 66 echoes all three
and logs the text with the single byte 65. -/
theorem log_text_stops_at_zero_byte :
    (serial_iteration (List.replicate 1024 0) (some [65, 0, 66])).map
        (fun r => (echoed r.2, logged r.2)) = some ([65, 0, 66], [[65]])
    ∧ ¬ (∀ data rx : List Nat, data.length = 1024 → 0 < rx.length → rx.length < 1024 - 1 →
          (serial_iteration data (some rx)).map (fun r => (echoed r.2, logged r.2))
            = some (rx, [rx])) := by
  have h : (serial_iteration (List.replicate 1024 0) (some [65, 0, 66])).map
      (fun r => (echoed r.2, logged r.2)) = some ([65, 0, 66], [[65]]) := by decide
  refine ⟨h, ?_⟩
  intro hall
  have h2 := hall (List.replicate 1024 0) [65, 0, 66] (by simp) (by decide) (by decide)
  rw [h] at h2
  exact absurd h2 (by decide)

/-- C8 amended. In one iteration with a 1024-byte buffer: if the read
returns K bytes with 0 < K < 1023, exactly those K bytes are written back,
the buffer holds them followed by a zero at index K, and one log entry is
emitted whose text is the bytes read up to their first zero byte, which is
all K bytes when none of them is zero; if the read returns 0 bytes, no byte
is written back and no log entry is emitted. -/
theorem serial_echo_and_log (data rx : List Nat) (hd : data.length = 1024)
    (hK : rx.length < 1024 - 1) :
    (0 < rx.length →
      ∃ data2 : List Nat,
        serial_iteration data (some rx)
          = some (data2, [SerialEffect.uart_write_bytes rx,
              SerialEffect.ESP_LOGI "%s" (rx.takeWhile (fun b => b ≠ 0))])
        ∧ data2.take rx.length = rx ∧ data2[rx.length]? = some 0
        ∧ echoed [SerialEffect.uart_write_bytes rx,
              SerialEffect.ESP_LOGI "%s" (rx.takeWhile (fun b => b ≠ 0))] = rx
        ∧ logged [SerialEffect.uart_write_bytes rx,
              SerialEffect.ESP_LOGI "%s" (rx.takeWhile (fun b => b ≠ 0))]
            = [rx.takeWhile (fun b => b ≠ 0)]
        ∧ ((∀ b ∈ rx, b ≠ 0) → rx.takeWhile (fun b => b ≠ 0) = rx))
    ∧ (rx = [] →
      serial_iteration data (some rx) = some (data, [SerialEffect.uart_write_bytes []])
      ∧ echoed [SerialEffect.uart_write_bytes []] = []
      ∧ logged [SerialEffect.uart_write_bytes []] = []) := by
  constructor
  · intro hpos
    have hne : rx.length ≠ 0 := by omega
    have ht : data.drop rx.length ≠ [] := by
      intro h
      have := congrArg List.length h
      simp only [List.length_drop, List.length_nil] at this
      omega
    obtain ⟨h1, h2, h3⟩ := cstr_set_terminator rx (data.drop rx.length) ht
    refine ⟨(rx ++ data.drop rx.length).set rx.length 0, ?_, h2, h3, ?_, ?_, ?_⟩
    · have hc : rx.length ≤ 1024 - 1 ∧ data.length = 1024 := ⟨by omega, hd⟩
      simp only [serial_iteration, if_pos hc, if_pos hne, h1, List.take_left]
    · simp [echoed]
    · simp [logged, echoed]
    · exact takeWhile_of_all rx
  · intro hrx
    subst hrx
    have hc : ([] : List Nat).length ≤ 1024 - 1 ∧ data.length = 1024 := ⟨by simp, hd⟩
    refine ⟨?_, rfl, rfl⟩
    simp only [serial_iteration, if_pos hc]
    simp

set_option maxRecDepth 100000 in
/-- Witness for C8 amended: the bytes of "OK" on a zeroed buffer. -/
theorem serial_echo_and_log_witness :
    (serial_iteration (List.replicate 1024 0) (some [79, 75])).map (fun r => r.2)
      = some [SerialEffect.uart_write_bytes [79, 75], SerialEffect.ESP_LOGI "%s" [79, 75]] := by
  obtain ⟨d, h, -⟩ :=
    (serial_echo_and_log (List.replicate 1024 0) [79, 75] (by simp) (by decide)).1 (by decide)
  rw [h]
  rfl

end EspDsmr
